import Mathlib

/-
Shallow embedding of `packages/@ember/(internals)/glimmer/lib/helper.ts`
(the reactive helper-invocation runtime of ember.js).

JavaScript values flowing through helpers are modelled by the inductive
`Val`; machine state that the source mutates (tag revisions, the run-loop
queue, the mutable `args` object) is passed explicitly.  Tag operations
(`createTag`, `dirtyTag`, `consumeTag` from `@glimmer/validator`) are
opaque collaborators per the spec: tags are `Nat` identifiers, a tag store
maps each identifier to its revision, and a `consumeTag` call is recorded
as an event in a trace so that ordering and multiplicity of consumption
are observable.
-/

/-- A JavaScript value as observed by helper computations.  `vnull` and
`vundefined` model the nullable sentinels the spec calls out. -/
inductive Val where
  | vnull
  | vundefined
  | num (n : Int)
  | str (s : String)
  | boolean (b : Bool)
  deriving DecidableEq, Repr

/-- Named arguments: a string-keyed mapping, modelled as an association list. -/
abbrev NamedArgs := List (String × Val)

/-- Property lookup on a named-arguments object (`named.op` in the source scenario). -/
def lookupNamed (named : NamedArgs) (k : String) : Option Val :=
  (named.find? (fun p => p.1 == k)).map (fun p => p.2)

/-- An observable interaction with the tag primitive: `consumeTag t` or
`dirtyTag t` on the tag with identifier `t`. -/
inductive TagEvent where
  | consume (t : Nat)
  | dirty (t : Nat)
  deriving DecidableEq, Repr

/-- The type of a classic helper's `compute(positional, named)` method.
Besides its return value it yields the trace of tag events the body
performed, so that the read-after-call ordering of `getValue` is provable. -/
abbrev ComputeFn := List Val → NamedArgs → Val × List TagEvent

/-- `Arguments` from `@glimmer/interfaces`: `{ positional, named }`. -/
structure Arguments where
  positional : List Val
  named : NamedArgs
  deriving DecidableEq, Repr

/-- The mutable heap of argument objects: a reference (`Nat`) designates one
`Arguments` object whose fields may be reassigned between calls. -/
abbrev ArgsStore := Nat → Arguments

/-- Reassigning the fields of the argument object at reference `ref`. -/
def updateArgs (σ : ArgsStore) (ref : Nat) (a : Arguments) : ArgsStore :=
  fun r => if r = ref then a else σ r

/-- `createTag()` from `@glimmer/validator`, modelled with a freshness
counter: returns the fresh tag identifier and the advanced counter. -/
def createTag (c : Nat) : Nat × Nat := (c, c + 1)

/-- Revisions of all tags: identifier to revision number. -/
abbrev TagStore := Nat → Nat

/-- `dirtyTag(tag)` from `@glimmer/validator`: bump the tag's revision. -/
def dirtyTag (t : Nat) (σ : TagStore) : TagStore :=
  fun u => if u = t then σ u + 1 else σ u

/-- A validated classic helper instance as used after `createHelper`'s
assertion: its `compute` method and its `RECOMPUTE_TAG` field.  (The
`destroy` method's body is never invoked by this file's code, only its
presence is checked, so it carries no behavior here.) -/
structure HelperObj where
  recomputeTag : Nat
  compute : ComputeFn

/-- `Helper.init`: assigns `this[RECOMPUTE_TAG] = createTag()` on the fresh
instance.  The freshness counter is threaded explicitly.  (The source also
asserts `this.compute` is defined; in this typed model `compute` is a
required field, so the assertion always passes.) -/
def Helper.init (compute : ComputeFn) (c : Nat) : HelperObj × Nat :=
  let p := createTag c
  ({ recomputeTag := p.1, compute := compute }, p.2)

/-- State of the host batching scheduler together with all tag revisions:
`queue` holds the tags whose dirtying has been scheduled but not flushed. -/
structure SchedulerState where
  queue : List Nat
  tags : TagStore

/-- Modelled from the spec: the `join` batching primitive of
`@ember/runloop` is repository code not present under `src/`; per the
spec it coalesces scheduled work — "scheduleDirty(tag) enqueues, flush()
is called once per logical tick by the host, deduplicating same-tag
entries" — so enqueueing an already-pending tag is a no-op. -/
def scheduleDirty (t : Nat) (s : SchedulerState) : SchedulerState :=
  if t ∈ s.queue then s else { s with queue := s.queue ++ [t] }

/-- `Helper.recompute()`: `join(() => dirtyTag(this[RECOMPUTE_TAG]))` —
enqueue the dirtying of this instance's recompute tag into the batching
scheduler (see `scheduleDirty`); it does not touch tag revisions itself. -/
def Helper.recompute (h : HelperObj) (s : SchedulerState) : SchedulerState :=
  scheduleDirty h.recomputeTag s

/-- Modelled from the spec: the scheduler's end-of-turn flush dirties every
queued tag once and empties the queue. -/
def flush (s : SchedulerState) : SchedulerState :=
  { queue := [], tags := s.queue.foldl (fun σ t => dirtyTag t σ) s.tags }

/-- The owner-injection record the classic manager builds at construction
time; `setOwner` writes the owner back-reference onto it.  Owners are
opaque (`Nat` handles); the manager's constructor parameter may be
`undefined`, hence `Option`. -/
structure OwnerInjection where
  owner : Option Nat
  deriving DecidableEq, Repr

/-- `setOwner(obj, owner)` from the `@ember` internals owner package (repository code
not under `src/`): per the spec it is the `attachOwner(target, owner)`
operation that stores an owner back-reference on the target record. -/
def setOwner (r : OwnerInjection) (o : Option Nat) : OwnerInjection :=
  { r with owner := o }

/-- `ClassicHelperManager`: its only per-instance state is the
`ownerInjection` record built in the constructor. -/
structure ClassicHelperManager where
  ownerInjection : OwnerInjection

/-- The `ClassicHelperManager` constructor: `let ownerInjection = {};
setOwner(ownerInjection, owner!); this.ownerInjection = ownerInjection;`. -/
def ClassicHelperManager.make (owner : Option Nat) : ClassicHelperManager :=
  { ownerInjection := setOwner { owner := none } owner }

/-- The raw object a definition's factory produces, before `createHelper`'s
assertion has validated it: `compute` and the `destroy` method may be
missing. -/
structure RawInstance where
  compute : Option ComputeFn
  hasDestroy : Bool
  recomputeTag : Nat

/-- What `definition.create(...)` returns: either not an object at all
(`null` or a primitive), or an object with the fields above. -/
inductive Produced where
  | nonObject
  | obj (raw : RawInstance)

/-- The prototype shape `getDebugName` inspects; its name may be absent. -/
structure ProtoShape where
  name : Option String
  deriving DecidableEq, Repr

/-- The shape of a definition's `class` property value. -/
structure ClassShape where
  prototype : Option ProtoShape
  deriving DecidableEq, Repr

/-- A classic helper definition as consumed by `ClassicHelperManager`:
either a `typeof Helper` class or an `InternalFactoryManager`.
`classKey` records whether the string key `class` is present on the object
(the `isFactoryManager` test); `classVal` holds the truthy value of
`definition.class` (`none` when the property is absent or falsy, matching
the `definition.class || definition` fallback); `prototype` is the
definition's own prototype; `create` is its factory, receiving either no
argument or the manager's owner-injection record. -/
structure ClassicDefinition where
  classKey : Bool
  classVal : Option ClassShape
  prototype : Option ProtoShape
  create : Option OwnerInjection → Produced

/-- `isFactoryManager(obj)`: `obj != null && 'class' in obj`. -/
def isFactoryManager (d : ClassicDefinition) : Bool :=
  d.classKey

/-- The value `createHelper` obtains from the definition's factory:
`isFactoryManager(definition) ? definition.create() :
definition.create(this.ownerInjection)`. -/
def producedOf (m : ClassicHelperManager) (d : ClassicDefinition) : Produced :=
  if isFactoryManager d then d.create none else d.create (some m.ownerInjection)

/-- The predicate of `createHelper`'s assertion: the produced value is a
non-null object whose `compute` and `destroy` are both functions. -/
def isHelperInstance : Produced → Bool
  | .nonObject => false
  | .obj raw => raw.compute.isSome && raw.hasDestroy

/-- `ClassicHelperStateBucket`: `{ instance, args }` (the field `instance`
is spelled `inst`, `instance` being reserved in Lean). -/
structure ClassicHelperStateBucket where
  inst : HelperObj
  args : Arguments

/-- `ClassicHelperManager.createHelper(definition, args)`: obtain the
instance from the factory (see `producedOf`), assert it is a helper
instance — a failed assertion is an `Except.error` — and return the bucket
`{ instance, args }`. -/
def ClassicHelperManager.createHelper (m : ClassicHelperManager)
    (d : ClassicDefinition) (args : Arguments) :
    Except String ClassicHelperStateBucket :=
  match producedOf m d with
  | .nonObject => .error "expected HelperInstance"
  | .obj raw =>
    match raw.compute with
    | none => .error "expected HelperInstance"
    | some f =>
      if raw.hasDestroy then
        .ok { inst := { recomputeTag := raw.recomputeTag, compute := f }, args := args }
      else
        .error "expected HelperInstance"

/-- `ClassicHelperManager.getDestroyable({ instance })`: returns the instance. -/
def ClassicHelperManager.getDestroyable (b : ClassicHelperStateBucket) : HelperObj :=
  b.inst

/-- `ClassicHelperManager.getValue({ instance, args })`: destructure
`positional` and `named` from `args`, call `instance.compute(positional,
named)`, then `consumeTag(instance[RECOMPUTE_TAG])`, and return what
`compute` returned.  The result pairs the return value with the full tag
event trace of the call: `compute`'s own events followed by the manager's
single consume. -/
def ClassicHelperManager.getValue (b : ClassicHelperStateBucket) :
    Val × List TagEvent :=
  let positional := b.args.positional
  let named := b.args.named
  let ret := b.inst.compute positional named
  (ret.1, ret.2 ++ [TagEvent.consume b.inst.recomputeTag])

/-- Modelled from the spec: `getDebugName` of the `@ember` internals utils package is
repository code not present under `src/`; per the spec it is a
"best-effort diagnostic name" that "never throws, falls back gracefully",
so it is total: it reads the prototype's name when there is one and
otherwise yields a fallback string. -/
def utilGetDebugName : Option ProtoShape → String
  | some p => p.name.getD "(unknown object)"
  | none => "(unknown object)"

/-- `ClassicHelperManager.getDebugName(definition)`:
`getDebugName(((definition.class || definition))['prototype'])`. -/
def ClassicHelperManager.getDebugName (d : ClassicDefinition) : String :=
  utilGetDebugName
    (match d.classVal with
     | some c => c.prototype
     | none => d.prototype)

/-- The capability descriptor `{ version, hasValue, hasDestroyable }`. -/
structure Capabilities where
  version : String
  hasValue : Bool
  hasDestroyable : Bool
  deriving DecidableEq, Repr

/-- Modelled from the spec: `helperCapabilities` of `@glimmer/manager` is
an external collaborator; per the spec it validates that the version
string "must match a recognized protocol revision or construction fails"
(the revision used here is `3.23`) and records the declared optional
flags, an undeclared flag defaulting to `false`. -/
def helperCapabilities (version : String) (hasValue : Option Bool)
    (hasDestroyable : Option Bool) : Except String Capabilities :=
  if version = "3.23" then
    .ok { version := version
          hasValue := hasValue.getD false
          hasDestroyable := hasDestroyable.getD false }
  else
    .error "Invalid helper capabilities version"

/-- `ClassicHelperManager`'s descriptor:
`helperCapabilities('3.23', { hasValue: true, hasDestroyable: true })`. -/
def ClassicHelperManager.capabilities : Except String Capabilities :=
  helperCapabilities "3.23" (some true) (some true)

/-- `SimpleClassicHelperManager`'s descriptor:
`helperCapabilities('3.23', { hasValue: true })` — `hasDestroyable` is not
declared. -/
def SimpleClassicHelperManager.capabilities : Except String Capabilities :=
  helperCapabilities "3.23" (some true) none

/-- `Wrapper`: the opaque handle `helper(fn)` returns, closing over the
wrapped function.  Its `compute` is a plain function of the positional and
named arguments. -/
structure Wrapper where
  isHelperFactory : Bool
  compute : List Val → NamedArgs → Val

/-- The `helper(helperFn)` entry point: `new Wrapper(helperFn)`. -/
def helper (f : List Val → NamedArgs → Val) : Wrapper :=
  { isHelperFactory := true, compute := f }

/-- `Wrapper.prototype.create()`: returns a fresh `{ compute: this.compute }`. -/
structure SimpleHelper where
  compute : List Val → NamedArgs → Val

def Wrapper.create (w : Wrapper) : SimpleHelper :=
  { compute := w.compute }

/-- The functional manager's bucket: the zero-argument thunk
`() => definition.compute.call(null, args.positional, args.named)`.  The
ambient mutable heap of argument objects is the thunk's implicit input, so
the model gives the thunk the heap as its argument: the fields of `args`
are read when the thunk runs, not when it is built. -/
abbrev SimpleBucket := ArgsStore → Val

/-- `SimpleClassicHelperManager.createHelper(definition, args)`: wrap the
definition's function and the `args` reference in a thunk — no instance,
no owner injection, no tag. -/
def SimpleClassicHelperManager.createHelper (w : Wrapper) (ref : Nat) :
    SimpleBucket :=
  fun σ => w.compute (σ ref).positional (σ ref).named

/-- `SimpleClassicHelperManager.getValue(fn)`: `return fn()`. -/
def SimpleClassicHelperManager.getValue (fn : SimpleBucket) (σ : ArgsStore) : Val :=
  fn σ

/-- `SimpleClassicHelperManager` declares no `getDestroyable` method: the
class body has none, modelled as the absent member. -/
def SimpleClassicHelperManager.getDestroyable : Option (SimpleBucket → HelperObj) :=
  none

/-- `SimpleClassicHelperManager.getDebugName(definition)`:
`getDebugName(definition.compute)` — a total call on the wrapped function;
the function value itself carries no name in this model, so the util's
fallback is used. -/
def SimpleClassicHelperManager.getDebugName (_ : Wrapper) : String :=
  utilGetDebugName none

/- Concrete scenario material used by witnesses and scenario conjuncts. -/

/-- The spec scenario's classic compute: `compute([a,b], {op}) { return
op==='add' ? a+b : a-b }`. -/
def addSubCompute : ComputeFn := fun positional named =>
  match positional with
  | Val.num a :: Val.num b :: _ =>
    (if lookupNamed named "op" = some (Val.str "add")
     then Val.num (a + b) else Val.num (a - b), [])
  | _ => (Val.vundefined, [])

def addSubInstance : HelperObj :=
  { recomputeTag := 0, compute := addSubCompute }

def addBucket : ClassicHelperStateBucket :=
  { inst := addSubInstance
    args := { positional := [Val.num 2, Val.num 3]
              named := [("op", Val.str "add")] } }

def subBucket : ClassicHelperStateBucket :=
  { inst := addSubInstance
    args := { positional := [Val.num 2, Val.num 3]
              named := [("op", Val.str "sub")] } }

/-- The spec scenario's functional helper: `(pos, named) => pos[0] * 2`. -/
def doubleWrapper : Wrapper :=
  helper (fun pos _ =>
    match pos with
    | Val.num n :: _ => Val.num (n * 2)
    | _ => Val.vundefined)

/-- A heap whose argument object 0 is `{ positional: [21], named: {} }`. -/
def store21 : ArgsStore :=
  fun _ => { positional := [Val.num 21], named := [] }

/-- A heap whose argument object 0 is `{ positional: [1], named: {} }`. -/
def store1 : ArgsStore :=
  fun _ => { positional := [Val.num 1], named := [] }

/-- A definition whose factory yields a valid helper instance (used by the
witness of the `createHelper` validation theorem). -/
def goodDefinition : ClassicDefinition :=
  { classKey := false
    classVal := none
    prototype := some { name := some "AddSubHelper" }
    create := fun _ => .obj { compute := some addSubCompute
                              hasDestroy := true
                              recomputeTag := 0 } }

/-- A definition whose factory yields a non-object (used by the witness of
the `createHelper` validation theorem). -/
def badDefinition : ClassicDefinition :=
  { classKey := false
    classVal := none
    prototype := none
    create := fun _ => .nonObject }

/-- Scheduler scenario material for the recompute-coalescing witness. -/
def witnessHelperObj : HelperObj :=
  { recomputeTag := 0, compute := fun _ _ => (Val.vnull, []) }

def witnessScheduler : SchedulerState :=
  { queue := [], tags := fun _ => 0 }

/- Helper lemmas about the batching scheduler. -/

/-- Flushing a queue bumps each tag's revision once per queue occurrence. -/
theorem foldl_dirtyTag_apply (l : List Nat) (σ : TagStore) (u : Nat) :
    (l.foldl (fun σ t => dirtyTag t σ) σ) u = σ u + l.count u := by
  induction l generalizing σ with
  | nil => simp
  | cons t l ih =>
    simp only [List.foldl_cons, ih, List.count_cons, dirtyTag]
    by_cases h : u = t
    · subst h; simp; omega
    · have hb : (u == t) = false := by simpa using h
      have ht : ¬ t = u := fun he => h he.symm
      simp [h, hb, ht]

/-- Iterating `recompute` never touches tag revisions: the dirtying is only
queued. -/
theorem recompute_iterate_tags_eq (h : HelperObj) (s : SchedulerState) (n : Nat) :
    ((Helper.recompute h)^[n] s).tags = s.tags := by
  induction n with
  | zero => rfl
  | succ n ih =>
    rw [Function.iterate_succ_apply']
    unfold Helper.recompute scheduleDirty
    split
    · exact ih
    · exact ih

/-- When the tag is not yet queued, any positive number of `recompute` calls
leaves the scheduler with that tag appended exactly once. -/
theorem recompute_iterate_queue_eq (h : HelperObj) (s : SchedulerState) (n : Nat)
    (hq : h.recomputeTag ∉ s.queue) (hn : 1 ≤ n) :
    (Helper.recompute h)^[n] s = { s with queue := s.queue ++ [h.recomputeTag] } := by
  induction n with
  | zero => exact absurd hn (by omega)
  | succ n ih =>
    rw [Function.iterate_succ_apply']
    rcases Nat.eq_zero_or_pos n with h0 | hpos
    · subst h0
      show Helper.recompute h s = _
      unfold Helper.recompute scheduleDirty
      rw [if_neg hq]
    · rw [ih hpos]
      unfold Helper.recompute scheduleDirty
      rw [if_pos (by simp)]

/- Claim theorems. -/

/-- C1: `ClassicHelperManager.getValue` on a bucket `{instance, args}`
returns exactly `instance.compute(args.positional, args.named)` with no
transformation (nullable sentinels included, since the equation holds for
every compute function); in the add/sub scenario with `positional=[2,3]`,
`named={op:'add'}` gives `5` and `named={op:'sub'}` gives `-1`. -/
theorem classic_getValue_returns_compute :
    (∀ b : ClassicHelperStateBucket,
      (ClassicHelperManager.getValue b).1 =
        (b.inst.compute b.args.positional b.args.named).1) ∧
    (ClassicHelperManager.getValue addBucket).1 = Val.num 5 ∧
    (ClassicHelperManager.getValue subBucket).1 = Val.num (-1) := by
  refine ⟨fun b => rfl, ?_, ?_⟩ <;> decide

/-- C2: every `ClassicHelperManager.getValue` call appends exactly one
`consumeTag` of the instance's recompute tag to the trace, strictly after
all tag events `compute` performed itself: the trace equals `compute`'s
events followed by the single consume, that consume is the last event, and
its count is one more than in `compute`'s own trace, however many reads
`compute` did internally. -/
theorem classic_getValue_consumes_tag_once_after_compute :
    ∀ b : ClassicHelperStateBucket,
      (ClassicHelperManager.getValue b).2 =
        (b.inst.compute b.args.positional b.args.named).2 ++
          [TagEvent.consume b.inst.recomputeTag] ∧
      (ClassicHelperManager.getValue b).2.count
          (TagEvent.consume b.inst.recomputeTag) =
        (b.inst.compute b.args.positional b.args.named).2.count
          (TagEvent.consume b.inst.recomputeTag) + 1 ∧
      (ClassicHelperManager.getValue b).2.getLast? =
        some (TagEvent.consume b.inst.recomputeTag) := by
  intro b
  refine ⟨rfl, ?_, ?_⟩
  · simp [ClassicHelperManager.getValue, List.count_append]
  · simp [ClassicHelperManager.getValue]

/-- C3: `Helper.recompute` dirties no tag synchronously — after any number
of `recompute` calls the tag revisions are untouched — and for every
`n ≥ 1`, `n` synchronous `recompute()` calls within one turn followed by
the scheduler's flush bump the instance's recompute tag revision by
exactly one, not `n` (the tag was not already pending this turn). -/
theorem recompute_coalesced_single_dirty (h : HelperObj) (s : SchedulerState)
    (n : Nat) (hq : h.recomputeTag ∉ s.queue) (hn : 1 ≤ n) :
    ((Helper.recompute h)^[n] s).tags h.recomputeTag = s.tags h.recomputeTag ∧
    (flush ((Helper.recompute h)^[n] s)).tags h.recomputeTag =
      s.tags h.recomputeTag + 1 := by
  constructor
  · rw [recompute_iterate_tags_eq]
  · rw [recompute_iterate_queue_eq h s n hq hn]
    simp only [flush]
    rw [foldl_dirtyTag_apply]
    have hz : s.queue.count h.recomputeTag = 0 := by
      simpa using List.count_eq_zero.mpr hq
    simp [List.count_append, hz]

/-- Witness for C3: three recompute calls on a fresh scheduler leave the
tag's revision at 0, and one flush moves it to exactly 1. -/
theorem recompute_coalesced_single_dirty_witness :
    (witnessHelperObj.recomputeTag ∉ witnessScheduler.queue ∧ (1 : Nat) ≤ 3) ∧
    ((Helper.recompute witnessHelperObj)^[3] witnessScheduler).tags
        witnessHelperObj.recomputeTag =
      witnessScheduler.tags witnessHelperObj.recomputeTag ∧
    (flush ((Helper.recompute witnessHelperObj)^[3] witnessScheduler)).tags
        witnessHelperObj.recomputeTag =
      witnessScheduler.tags witnessHelperObj.recomputeTag + 1 :=
  ⟨⟨by decide, by decide⟩,
   recompute_coalesced_single_dirty witnessHelperObj witnessScheduler 3
     (by decide) (by decide)⟩

/-- C4: `ClassicHelperManager.createHelper` validates the factory's
product: when it is not a non-null object with both a `compute` function
and a `destroy` function the assertion fails (contract-violation error);
otherwise the returned bucket holds exactly that object (its compute and
recompute tag) and the given arguments unchanged. -/
theorem createHelper_validates_instance (m : ClassicHelperManager)
    (d : ClassicDefinition) (args : Arguments) :
    (isHelperInstance (producedOf m d) = false →
      m.createHelper d args = .error "expected HelperInstance") ∧
    (∀ raw f, producedOf m d = .obj raw → raw.compute = some f →
      raw.hasDestroy = true →
      m.createHelper d args =
        .ok { inst := { recomputeTag := raw.recomputeTag, compute := f }
              args := args }) := by
  constructor
  · intro hbad
    cases hp : producedOf m d with
    | nonObject => simp [ClassicHelperManager.createHelper, hp]
    | obj raw =>
      rw [hp] at hbad
      cases hc : raw.compute with
      | none => simp [ClassicHelperManager.createHelper, hp, hc]
      | some f =>
        have hd : raw.hasDestroy = false := by
          simpa [isHelperInstance, hc] using hbad
        simp [ClassicHelperManager.createHelper, hp, hc, hd]
  · intro raw f hp hc hd
    simp [ClassicHelperManager.createHelper, hp, hc, hd]

/-- Witness for C4: a factory producing a non-object makes `createHelper`
fail with the contract-violation error, and a factory producing a valid
instance yields the bucket with that instance and the arguments. -/
theorem createHelper_validates_instance_witness :
    (isHelperInstance (producedOf (ClassicHelperManager.make none) badDefinition) = false ∧
     (ClassicHelperManager.make none).createHelper badDefinition
        { positional := [], named := [] } = .error "expected HelperInstance") ∧
    (ClassicHelperManager.make none).createHelper goodDefinition
        { positional := [], named := [] } =
      .ok { inst := { recomputeTag := 0, compute := addSubCompute }
            args := { positional := [], named := [] } } :=
  ⟨⟨rfl,
    (createHelper_validates_instance (ClassicHelperManager.make none)
        badDefinition { positional := [], named := [] }).1 rfl⟩,
   (createHelper_validates_instance (ClassicHelperManager.make none)
        goodDefinition { positional := [], named := [] }).2
     { compute := some addSubCompute, hasDestroy := true, recomputeTag := 0 }
     addSubCompute rfl rfl rfl⟩

/-- C5: for any function-based definition and args reference, the bucket
`SimpleClassicHelperManager.createHelper` returns is the bare thunk — no
instance, no injected environment, no tag appear in it — and `getValue`
simply invokes it, yielding `fn(args.positional, args.named)`; in the
doubling scenario with `positional=[21]` the value is `42`, and the
manager exposes no destroyable (it declares no `getDestroyable`). -/
theorem simple_manager_thunk_getValue :
    (∀ (w : Wrapper) (ref : Nat) (σ : ArgsStore),
      SimpleClassicHelperManager.getValue
          (SimpleClassicHelperManager.createHelper w ref) σ =
        w.compute (σ ref).positional (σ ref).named) ∧
    SimpleClassicHelperManager.getValue
        (SimpleClassicHelperManager.createHelper doubleWrapper 0) store21 =
      Val.num 42 ∧
    SimpleClassicHelperManager.getDestroyable = none :=
  ⟨fun _ _ _ => rfl, by decide, rfl⟩

/-- C6: the functional manager's capability descriptor has
`hasValue = true` and `hasDestroyable = false` (never declared, so it
defaults to false), the functional manager defines no `getDestroyable`
operation, and the classic manager's descriptor declares both
`hasValue = true` and `hasDestroyable = true`. -/
theorem capability_descriptors :
    SimpleClassicHelperManager.capabilities =
      .ok { version := "3.23", hasValue := true, hasDestroyable := false } ∧
    SimpleClassicHelperManager.getDestroyable = none ∧
    ClassicHelperManager.capabilities =
      .ok { version := "3.23", hasValue := true, hasDestroyable := true } :=
  ⟨rfl, rfl, rfl⟩

/-- C7: the instance `ClassicHelperManager.createHelper` constructs comes
from `definition.create()` with no argument when the definition is a
factory manager (has a `class` property), and otherwise from
`definition.create(ownerInjection)` where `ownerInjection` is the record
on which the manager's owner was set at manager-construction time. -/
theorem createHelper_construction_shape :
    ∀ (owner : Option Nat) (d : ClassicDefinition),
      producedOf (ClassicHelperManager.make owner) d =
        if isFactoryManager d then d.create none
        else d.create (some { owner := owner }) :=
  fun _ _ => rfl

/-- C8: `ClassicHelperManager.getDebugName` is a total function of the
definition — it derives the name from `definition.class`'s prototype when
`class` is present and truthy, from the definition's own prototype
otherwise, and falls back to a placeholder string when the inspected
prototype (or its name) is absent; no input makes it fail. -/
theorem classic_getDebugName_total_fallback :
    ∀ d : ClassicDefinition,
      (ClassicHelperManager.getDebugName d =
        utilGetDebugName
          (match d.classVal with
           | some c => c.prototype
           | none => d.prototype)) ∧
      (d.classVal = none → d.prototype = none →
        ClassicHelperManager.getDebugName d = "(unknown object)") ∧
      (∀ c, d.classVal = some c → c.prototype = none →
        ClassicHelperManager.getDebugName d = "(unknown object)") := by
  intro d
  refine ⟨rfl, ?_, ?_⟩
  · intro h1 h2
    simp [ClassicHelperManager.getDebugName, utilGetDebugName, h1, h2]
  · intro c h1 h2
    simp [ClassicHelperManager.getDebugName, utilGetDebugName, h1, h2]

/-- Witness for C8: a definition with no truthy `class` and no prototype
gets the graceful fallback name. -/
theorem classic_getDebugName_total_fallback_witness :
    badDefinition.classVal = none ∧ badDefinition.prototype = none ∧
    ClassicHelperManager.getDebugName badDefinition = "(unknown object)" :=
  ⟨rfl, rfl, (classic_getDebugName_total_fallback badDefinition).2.1 rfl rfl⟩

/-- C9: each `Helper.init` call assigns a freshly created tag, so two
instances initialized in sequence — e.g. two buckets built from the same
definition at different call sites — have distinct recompute tags, and
dirtying either instance's tag leaves the other's tag revision untouched;
the second bucket's `getValue` result is its own compute's value, whatever
happened to the first instance's tag. -/
theorem helper_instances_own_fresh_tags :
    ∀ (c : Nat) (f g : ComputeFn) (σ : TagStore) (a : Arguments),
      (Helper.init f c).1.recomputeTag ≠
        (Helper.init g (Helper.init f c).2).1.recomputeTag ∧
      dirtyTag (Helper.init f c).1.recomputeTag σ
          (Helper.init g (Helper.init f c).2).1.recomputeTag =
        σ ((Helper.init g (Helper.init f c).2).1.recomputeTag) ∧
      dirtyTag (Helper.init g (Helper.init f c).2).1.recomputeTag σ
          (Helper.init f c).1.recomputeTag =
        σ ((Helper.init f c).1.recomputeTag) ∧
      (ClassicHelperManager.getValue
          { inst := (Helper.init g (Helper.init f c).2).1, args := a }).1 =
        (g a.positional a.named).1 := by
  intro c f g σ a
  refine ⟨?_, ?_, ?_, rfl⟩
  · show c ≠ c + 1
    omega
  · show dirtyTag c σ (c + 1) = σ (c + 1)
    unfold dirtyTag
    rw [if_neg (by omega)]
  · show dirtyTag (c + 1) σ c = σ c
    unfold dirtyTag
    rw [if_neg (by omega)]

/-- C10: the thunk built by `SimpleClassicHelperManager.createHelper`
reads `args.positional` and `args.named` when it is invoked, not when it
is created: reassigning the argument object's fields before `getValue`
makes `getValue` apply the function to the new fields — the doubling
helper over an args object first holding `[1]` returns `42` once the
fields are updated to `[21]`, though the original fields would have
given `2`. -/
theorem simple_thunk_reads_args_at_invocation :
    (∀ (w : Wrapper) (ref : Nat) (σ : ArgsStore) (a : Arguments),
      SimpleClassicHelperManager.getValue
          (SimpleClassicHelperManager.createHelper w ref)
          (updateArgs σ ref a) =
        w.compute a.positional a.named) ∧
    SimpleClassicHelperManager.getValue
        (SimpleClassicHelperManager.createHelper doubleWrapper 0)
        (updateArgs store1 0 { positional := [Val.num 21], named := [] }) =
      Val.num 42 ∧
    doubleWrapper.compute (store1 0).positional (store1 0).named =
      Val.num 2 := by
  refine ⟨?_, by decide, by decide⟩
  intro w ref σ a
  simp [SimpleClassicHelperManager.getValue,
    SimpleClassicHelperManager.createHelper, updateArgs]
